import Mathlib

/-!
Verification of the `lifecircles/speechtotext` repository: a push-to-talk
recorder (`ptt.py`) and a transcription CLI (`transcribe_custom.py`).

The Python sources are shallowly embedded below.  File contents are strings,
audio is a list with one entry per millisecond (`pydub`'s `len` and slicing
are in milliseconds), the external speech service is an oracle parameter
giving the outcome of `client.recognize`, and Python exceptions are values of
an explicit error type.
-/

namespace SpeechToText

/-- Python exceptions that the transcriber can raise. -/
inductive PyError
  | fileNotFound      -- `open()` on a missing file
  | indexError        -- indexing an empty list (`results[-1]`, `alternatives[0]`)
  | recognitionError  -- failure raised by the external `client.recognize` call
deriving DecidableEq, Repr

/-- One entry of `alternative.words` in the recognition response:
a recognized word together with its speaker tag. -/
structure WordInfo where
  speaker_tag : Nat
  word : String
deriving DecidableEq, Repr

/-- One alternative of a recognition result (`result.alternatives[i]`). -/
structure SpeechAlternative where
  words : List WordInfo
deriving DecidableEq, Repr

/-- One recognition result (`response.results[i]`). -/
structure SpeechResult where
  alternatives : List SpeechAlternative
deriving DecidableEq, Repr

/-- The response of the external recognition service. -/
structure RecognizeResponse where
  results : List SpeechResult
deriving DecidableEq, Repr

/-- The persistent state touched by one `transcribe_file` invocation:
the input audio file (one entry per millisecond), the vocabulary file
`vocab.txt` (`none` when the file is missing), and the transcript files
written by `write_file`, in order. -/
structure TState where
  audioFile : List Int
  vocabFile : Option String
  transcripts : List String
deriving DecidableEq, Repr

/-- Model of `trim_audio` (transcribe_custom.py lines 85-91): when the audio is longer
than 59000 ms it is truncated to its first 59000 ms and rewritten (the Bool
records whether `export` rewrote the file); otherwise nothing happens. -/
def trim_audio {α : Type} (sound : List α) : List α × Bool :=
  if 59000 < sound.length then (sound.take 59000, true) else (sound, false)

/-- Model of `load_vocab` (lines 116-123) applied to the contents of an existing file:
`f.read().split('\n')` then `filter(None, ...)` drops the empty strings. -/
def load_vocab (contents : String) : List String :=
  (contents.splitOn "\n").filter (fun w => w ≠ "")

/-- Model of `write_vocab` (lines 104-113): the string written to the vocabulary file,
`"%s\n" % i` appended for each word. -/
def write_vocab (words : List String) : String :=
  words.foldl (fun acc i => acc ++ i ++ "\n") ""

/-- The vocabulary-merge loop of `transcribe_file` (lines 143-147):
`words_set = set(words)` is taken once, then each hint not in that set is
appended to `words`.  The membership test stays against the original
`words`, never against the list being grown. -/
def mergeVocab (words hints : List String) : List String :=
  hints.foldl (fun acc i => if i ∈ words then acc else acc ++ [i]) words

/-- The body of the transcript-assembly loop of `transcribe_file` (lines
177-183) on the state `(transcript, tag, speaker)`: a word carrying the
current tag is appended to `speaker` after a space; a different tag flushes
`"Speaker {tag}: {speaker}\n"` onto the transcript and restarts `speaker`
with the word. -/
def transcriptStep (acc : String × Nat × String) (word_info : WordInfo) :
    String × Nat × String :=
  let (transcript, tag, speaker) := acc
  if word_info.speaker_tag = tag then
    (transcript, tag, speaker ++ " " ++ word_info.word)
  else
    (transcript ++ "Speaker " ++ toString tag ++ ": " ++ speaker ++ "\n",
      word_info.speaker_tag, "" ++ word_info.word)

/-- The transcript-assembly step of `transcribe_file` (lines 172-186): the
loop state starts at `("", 1, "")` and after the walk the final group is
flushed with a trailing newline. -/
def buildTranscript (words_info : List WordInfo) : String :=
  let (transcript, tag, speaker) := words_info.foldl transcriptStep ("", 1, "")
  transcript ++ "Speaker " ++ toString tag ++ ": " ++ speaker ++ "\n"

/-- The effect of the vocabulary load-and-merge step of `transcribe_file`
(lines 142-148) on the vocabulary file: with the file present and hints
supplied, the merged list is written back; with `hints is None` nothing is
written; with the file missing `load_vocab` raises before any write. -/
def vocabAfterMerge : Option String → Option (List String) → Option String
  | none, _ => none
  | some c, none => some c
  | some c, some hs => some (write_vocab (mergeVocab (load_vocab c) hs))

/-- Model of `transcribe_file` (lines 126-189) for a `.wav` input (for which
`mp3_to_wav`, lines 61-72, returns the filename unchanged).  In source
order: `trim_audio` truncates the audio file in place; `load_vocab` opens
`vocab.txt` (raising `FileNotFoundError` when it is missing); when hints
were supplied they are merged and `write_vocab` rewrites `vocab.txt`;
`client.recognize` runs (its outcome is the oracle parameter
`recognizeOutcome`); `response.results[-1]` and `result.alternatives[0]`
raise `IndexError` on empty lists; finally `write_file` appends the
assembled transcript as a new timestamped file.  `get_frame_rate_channel`
and reading the audio bytes change no persistent state and are omitted.
Returns the final persistent state and the invocation's outcome. -/
def transcribe_file (st : TState) (hints : Option (List String))
    (recognizeOutcome : Except PyError RecognizeResponse) :
    TState × Except PyError Unit :=
  let st1 : TState := { st with audioFile := (trim_audio st.audioFile).1 }
  match st1.vocabFile with
  | none => (st1, .error .fileNotFound)
  | some contents =>
    let words := load_vocab contents
    let st2 : TState :=
      match hints with
      | none => st1
      | some hs => { st1 with vocabFile := some (write_vocab (mergeVocab words hs)) }
    match recognizeOutcome with
    | .error e => (st2, .error e)
    | .ok response =>
      match response.results.getLast? with
      | none => (st2, .error .indexError)
      | some result =>
        match result.alternatives.head? with
        | none => (st2, .error .indexError)
        | some alternative =>
          let transcript := buildTranscript alternative.words
          ({ st2 with transcripts := st2.transcripts ++ [transcript] }, .ok ())

/-! ## The push-to-talk recorder (`ptt.py`) -/

/-- State of the recorder process: the listener's flags (`key_pressed` and
`ended`, both starting falsy as Python `None`), the poll loop's `recording`
flag, whether the module-level `stream` variable holds a stream object
(it is `None` until the first `p.open`, and is never reset to `None`),
the number of WAV files written by `write_file` so far, and how the process
ended: `quitted` after the `sys.exit()` branch ran, `crashed` after an
unhandled exception escaped the `recorder` callback. -/
structure RecState where
  key_pressed : Bool
  ended : Bool
  recording : Bool
  streamOpen : Bool
  files : Nat
  quitted : Bool
  crashed : Bool
deriving DecidableEq, Repr

/-- The initial state of a recorder session (`__main__`, ptt.py lines
94-106): no key held, quit not requested, not recording, `stream = None`,
no file written. -/
def initRecState : RecState :=
  ⟨false, false, false, false, 0, false, false⟩

/-- Events the recorder session reacts to: the listener's press/release
callbacks for the record key, the press callback for the quit key
(`on_press`/`on_release`, ptt.py lines 30-40; releasing the quit key does
nothing), and one 100 ms tick of the scheduled `recorder` poll (lines
54-91). -/
inductive REvent
  | pressR
  | releaseR
  | pressQ
  | tick
deriving DecidableEq, Repr

/-- One execution of the `recorder` poll callback (ptt.py lines 54-91).
The `if/elif` chain: a held key while not recording opens the stream and
starts recording; a released key while recording stops the stream, writes
one WAV file and resets the buffer; otherwise, if the key is up and quit
was requested, the quit branch runs `stream.close()` — which raises
`AttributeError` when `stream` is still `None` (no recording ever started),
crashing the callback, and otherwise releases the device and exits. -/
def recorderTick (s : RecState) : RecState :=
  if s.key_pressed ∧ ¬ s.recording then
    { s with streamOpen := true, recording := true }
  else if ¬ s.key_pressed ∧ s.recording then
    { s with recording := false, files := s.files + 1 }
  else if ¬ s.key_pressed ∧ s.ended then
    if s.streamOpen then { s with quitted := true }
    else { s with crashed := true }
  else s

/-- Effect of one event on the session.  After the process has exited
(cleanly or by crash) no further event is processed: `sys.exit` ends the
scheduler loop and the crash propagates out of `task.run()`. -/
def stepR (s : RecState) (e : REvent) : RecState :=
  if s.quitted ∨ s.crashed then s
  else
    match e with
    | .pressR => { s with key_pressed := true }
    | .releaseR => { s with key_pressed := false }
    | .pressQ => { s with ended := true }
    | .tick => recorderTick s

/-- Run the recorder session over a finite event trace. -/
def runR (s : RecState) (evs : List REvent) : RecState :=
  evs.foldl stepR s

/-- The key-state samples the poll loop observes: the value of
`listener.key_pressed` at each tick that is actually processed (ticks after
process exit are not). -/
def observations : RecState → List REvent → List Bool
  | _, [] => []
  | s, e :: es =>
    if s.quitted ∨ s.crashed then observations s es
    else
      match e with
      | .tick => s.key_pressed :: observations (stepR s .tick) es
      | _ => observations (stepR s e) es

/-- Number of falling edges (held, then released) in a sampled key signal,
given the previously observed value — each one is a complete press-then-
release pair as seen by the poll loop. -/
def fallingEdges : Bool → List Bool → Nat
  | _, [] => 0
  | prev, b :: bs => (if prev ∧ ¬ b then 1 else 0) + fallingEdges b bs

/-- Complete press-then-release pairs observed in a sampled key signal
(the key starts unobserved-as-released). -/
def completePairs (obs : List Bool) : Nat :=
  fallingEdges false obs

/-- Number of text lines closed by a newline in a string. -/
def numLines (s : String) : Nat :=
  s.data.count '\n'

/-- The words of a list joined by prefixing each with a space, starting from
an accumulator — the way `speaker` grows inside the assembly loop while the
tag never changes. -/
def spaceJoinFrom (sp : String) (l : List WordInfo) : String :=
  l.foldl (fun s w => s ++ " " ++ w.word) sp

/-! ## Helper lemmas about transcript assembly -/

/-- While every word carries tag 1 (the loop's initial tag), the assembly
loop never flushes: the transcript and tag components stay fixed and only
the `speaker` accumulator grows. -/
theorem foldl_transcriptStep_uniform (l : List WordInfo) :
    ∀ (t sp : String), (∀ w ∈ l, w.speaker_tag = 1) →
      l.foldl transcriptStep (t, 1, sp) = (t, 1, spaceJoinFrom sp l) := by
  induction l with
  | nil =>
    intro t sp _
    simp [spaceJoinFrom]
  | cons w ws ih =>
    intro t sp h
    have hw : w.speaker_tag = 1 := h w (List.mem_cons_self w ws)
    have hws : ∀ x ∈ ws, x.speaker_tag = 1 := fun x hx => h x (List.mem_cons_of_mem w hx)
    simp only [List.foldl_cons, transcriptStep, hw, if_pos, spaceJoinFrom] at *
    exact ih t (sp ++ " " ++ w.word) hws

/-- A word list whose tags are all 1 assembles to the single line
`"Speaker 1: "` followed by the space-joined words and a newline. -/
theorem buildTranscript_uniform (l : List WordInfo)
    (h : ∀ w ∈ l, w.speaker_tag = 1) :
    buildTranscript l = "Speaker 1: " ++ spaceJoinFrom "" l ++ "\n" := by
  unfold buildTranscript
  rw [foldl_transcriptStep_uniform l "" "" h]
  show "" ++ "Speaker " ++ toString (1 : Nat) ++ ": " ++ spaceJoinFrom "" l ++ "\n"
      = "Speaker 1: " ++ spaceJoinFrom "" l ++ "\n"
  congr 2

/-- Space-joining words free of newline characters onto a newline-free
accumulator yields a newline-free string. -/
theorem spaceJoinFrom_no_newline (l : List WordInfo) :
    ∀ sp : String, '\n' ∉ sp.data → (∀ w ∈ l, '\n' ∉ w.word.data) →
      '\n' ∉ (spaceJoinFrom sp l).data := by
  induction l with
  | nil =>
    intro sp hsp _
    simpa [spaceJoinFrom] using hsp
  | cons w ws ih =>
    intro sp hsp h
    have hw : '\n' ∉ w.word.data := h w (List.mem_cons_self w ws)
    have hws : ∀ x ∈ ws, '\n' ∉ x.word.data := fun x hx => h x (List.mem_cons_of_mem w hx)
    simp only [spaceJoinFrom, List.foldl_cons] at *
    refine ih (sp ++ " " ++ w.word) ?_ hws
    simp [String.data_append, hsp, hw]

/-! ## Claim theorems -/

/-- C1, counterexample: on the word list `[(1,"hi"),(1,"there"),(2,"yo")]`
the transcript assembly step of `transcribe_file` does not produce
`"Speaker 1: hi there\nSpeaker 2: yo\n"` — the claimed single space after
the first colon is wrong. -/
theorem c1_transcript_grouping_cex :
    buildTranscript [⟨1, "hi"⟩, ⟨1, "there"⟩, ⟨2, "yo"⟩]
      ≠ "Speaker 1: hi there\nSpeaker 2: yo\n" := by
  decide

/-- C1, amended: on the word list `[(1,"hi"),(1,"there"),(2,"yo")]` the
transcript assembly step produces `"Speaker 1:  hi there\nSpeaker 2: yo\n"`,
with two spaces after the first colon: the first group's accumulator starts
empty and every word of an unchanged-tag group is appended after a space,
so the first group's text carries a leading space.  Groups opened by a tag
change start directly with the word, a tag change starts a new line, and
the final group is flushed with a trailing newline. -/
theorem c1_transcript_grouping :
    buildTranscript [⟨1, "hi"⟩, ⟨1, "there"⟩, ⟨2, "yo"⟩]
      = "Speaker 1:  hi there\nSpeaker 2: yo\n" := by
  decide

/-- C2, counterexample: the non-empty word list `[(2,"yo")]`, all of whose
words carry speaker tag 2, assembles to `"Speaker 1: \nSpeaker 2: yo\n"` —
two newline-terminated lines, not one: the loop's tag starts at 1, so the
first word already flushes a spurious empty `Speaker 1` group. -/
theorem c2_single_speaker_cex :
    (∀ w ∈ [(⟨2, "yo"⟩ : WordInfo)], w.speaker_tag = 2) ∧
    buildTranscript [⟨2, "yo"⟩] = "Speaker 1: \nSpeaker 2: yo\n" ∧
    numLines (buildTranscript [⟨2, "yo"⟩]) ≠ 1 := by
  refine ⟨by decide, by decide, by decide⟩

/-- C2, amended: a non-empty word list whose words all carry speaker tag 1 —
the tag the assembly loop starts with — produces exactly one
`"Speaker 1: ..."` line (one newline-terminated line, given that no word
itself contains a newline character): the final unconditional flush fires
even though no tag change ever occurred.  For a uniform tag other than 1
an extra empty `Speaker 1` line precedes it. -/
theorem c2_single_speaker (l : List WordInfo) (_hne : l ≠ [])
    (h : ∀ w ∈ l, w.speaker_tag = 1) :
    buildTranscript l = "Speaker 1: " ++ spaceJoinFrom "" l ++ "\n" ∧
    ((∀ w ∈ l, '\n' ∉ w.word.data) → numLines (buildTranscript l) = 1) := by
  refine ⟨buildTranscript_uniform l h, fun hnl => ?_⟩
  rw [buildTranscript_uniform l h]
  have hJ : (spaceJoinFrom "" l).data.count '\n' = 0 :=
    List.count_eq_zero.mpr (spaceJoinFrom_no_newline l "" (by decide) hnl)
  simp [numLines, String.data_append, List.count_append, hJ]

/-- C2, witness for the amended claim at the word list `[(1,"hi")]`. -/
theorem c2_single_speaker_witness :
    buildTranscript [⟨1, "hi"⟩] = "Speaker 1: " ++ spaceJoinFrom "" [⟨1, "hi"⟩] ++ "\n" ∧
    ((∀ w ∈ [(⟨1, "hi"⟩ : WordInfo)], '\n' ∉ w.word.data) →
      numLines (buildTranscript [⟨1, "hi"⟩]) = 1) :=
  c2_single_speaker [⟨1, "hi"⟩] (by decide) (by decide)

/-- C8: `trim_audio` maps audio longer than 59000 ms to exactly its first
59000 ms (and rewrites the file), and leaves audio of at most 59000 ms
completely unchanged with no rewrite. -/
theorem c8_trim_audio_clamps (sound : List Int) :
    (59000 < sound.length →
      (trim_audio sound).1 = sound.take 59000 ∧
      (trim_audio sound).1.length = 59000 ∧
      (trim_audio sound).2 = true) ∧
    (sound.length ≤ 59000 → trim_audio sound = (sound, false)) := by
  constructor
  · intro h
    refine ⟨by simp [trim_audio, h], ?_, by simp [trim_audio, h]⟩
    simp [trim_audio, h, List.length_take]
    omega
  · intro h
    simp [trim_audio, Nat.not_lt.mpr h]

/-- C8, witness: a 59001 ms clip is clamped to 59000 ms, and a 1 ms clip is
returned unchanged with no rewrite. -/
theorem c8_trim_audio_clamps_witness :
    (trim_audio (List.replicate 59001 (0 : Int))).1.length = 59000 ∧
    trim_audio [(0 : Int)] = ([0], false) :=
  ⟨((c8_trim_audio_clamps (List.replicate 59001 0)).1
      (by simp only [List.length_replicate]; omega)).2.1,
    (c8_trim_audio_clamps [0]).2 (by simp)⟩

/-- The merge loop appends exactly the hints that are missing from the
pre-existing word list, in order, after it — the membership test is always
against the original list, never against the grown one. -/
theorem mergeVocab_eq_append_filter (words : List String) :
    ∀ (hints acc : List String),
      hints.foldl (fun a i => if i ∈ words then a else a ++ [i]) acc
        = acc ++ hints.filter (fun i => decide (i ∉ words)) := by
  intro hints
  induction hints with
  | nil =>
    intro acc
    simp
  | cons h t ih =>
    intro acc
    by_cases hm : h ∈ words
    · simp [List.foldl_cons, hm, ih]
    · simp [List.foldl_cons, hm, ih]

/-- C7, counterexample: merging the hint list `["a","a"]` (which repeats a
word) into the duplicate-free vocabulary `[]` persists `["a","a"]`, which
does contain a duplicate: `words_set` is computed once before the loop and
never updated, so the second `"a"` passes the membership test too. -/
theorem c7_merge_no_duplicates_cex :
    ([] : List String).Nodup ∧ ¬ (mergeVocab [] ["a", "a"]).Nodup := by
  refine ⟨List.nodup_nil, ?_⟩
  decide

/-- C7, amended: the vocabulary merge tests membership against the
pre-existing list before each insert, so the merged vocabulary list has no
duplicate entries provided the pre-existing list had none and the supplied
hint list itself repeats no word; a hint repeated within one invocation is
inserted once per occurrence. -/
theorem c7_merge_no_duplicates (words hints : List String)
    (hw : words.Nodup) (hh : hints.Nodup) : (mergeVocab words hints).Nodup := by
  unfold mergeVocab
  rw [mergeVocab_eq_append_filter]
  refine List.Nodup.append hw (hh.filter _) ?_
  intro x hxw hxf
  have hx : ¬ x ∈ words := by simpa using List.of_mem_filter hxf
  exact hx hxw

/-- C7, witness for the amended claim: merging distinct hints `["a","b"]`
into the duplicate-free vocabulary `["x"]` yields a duplicate-free list. -/
theorem c7_merge_no_duplicates_witness :
    (mergeVocab ["x"] ["a", "b"]).Nodup :=
  c7_merge_no_duplicates ["x"] ["a", "b"] (by decide) (by decide)

/-- Whatever else happens during an invocation, the audio file ends up as
`trim_audio` leaves it: truncation is the first step and nothing after it
touches the audio file. -/
theorem transcribe_file_audioFile (st : TState) (hints : Option (List String))
    (out : Except PyError RecognizeResponse) :
    (transcribe_file st hints out).1.audioFile = (trim_audio st.audioFile).1 := by
  obtain ⟨a, v, t⟩ := st
  cases v with
  | none => rfl
  | some c =>
    cases hints <;> cases out <;> simp only [transcribe_file] <;>
      split <;> (try rfl) <;> split <;> rfl

/-- C3, counterexample: with a 60000 ms input audio file, a present
vocabulary file and a failing recognition call, `transcribe_file` leaves
the audio file truncated to 59000 ms — a persistent state change beyond
the vocabulary merge, so the vocabulary merge is not the only persistent
state change of an invocation aborted by a recognition error. -/
theorem c3_recognition_failure_cex :
    (transcribe_file ⟨List.replicate 60000 (0 : Int), some "", []⟩ (some ["a"])
        (.error .recognitionError)).1.audioFile
      ≠ (⟨List.replicate 60000 (0 : Int), some "", []⟩ : TState).audioFile := by
  have hc : 59000 < (List.replicate 60000 (0 : Int)).length := by
    simp only [List.length_replicate]
    omega
  intro hEq
  rw [transcribe_file_audioFile] at hEq
  unfold trim_audio at hEq
  dsimp only at hEq
  rw [if_pos hc] at hEq
  have hlen := congrArg List.length hEq
  rw [List.length_take, List.length_replicate] at hlen
  omega

/-- C3, amended: when the recognition call fails, `transcribe_file` aborts
with that error, `write_file` is never invoked (the set of transcript files
is unchanged), and the vocabulary file holds exactly what the merge step
that preceded the call left there; besides the merge, the only other
persistent state change of the invocation is the audio normalization (the
59-second truncation) that also preceded the call. -/
theorem c3_recognition_failure (st : TState) (c : String)
    (hints : Option (List String)) (e : PyError)
    (hv : st.vocabFile = some c) :
    (transcribe_file st hints (.error e)).2 = .error e ∧
    (transcribe_file st hints (.error e)).1.transcripts = st.transcripts ∧
    (transcribe_file st hints (.error e)).1.vocabFile = vocabAfterMerge (some c) hints ∧
    (transcribe_file st hints (.error e)).1.audioFile = (trim_audio st.audioFile).1 := by
  cases hints <;> simp [transcribe_file, vocabAfterMerge, hv]

/-- C3, witness for the amended claim at a concrete failing invocation. -/
theorem c3_recognition_failure_witness :
    (transcribe_file ⟨[1], some "v", ["old"]⟩ (some ["a"]) (.error .recognitionError)).2
        = .error .recognitionError ∧
    (transcribe_file ⟨[1], some "v", ["old"]⟩ (some ["a"]) (.error .recognitionError)).1.transcripts
        = (⟨[1], some "v", ["old"]⟩ : TState).transcripts ∧
    (transcribe_file ⟨[1], some "v", ["old"]⟩ (some ["a"]) (.error .recognitionError)).1.vocabFile
        = vocabAfterMerge (some "v") (some ["a"]) ∧
    (transcribe_file ⟨[1], some "v", ["old"]⟩ (some ["a"]) (.error .recognitionError)).1.audioFile
        = (trim_audio (⟨[1], some "v", ["old"]⟩ : TState).audioFile).1 :=
  c3_recognition_failure ⟨[1], some "v", ["old"]⟩ "v" (some ["a"]) .recognitionError rfl

/-- C6, counterexample: with the vocabulary file missing, `transcribe_file`
aborts with the file error from `load_vocab`'s bare `open()` and writes no
transcript, even though the recognition call stood ready to return a
perfectly good response — it does not degrade to an empty vocabulary and
proceed. -/
theorem c6_missing_vocab_cex :
    (transcribe_file ⟨[], none, []⟩ (some ["a"])
        (.ok ⟨[⟨[⟨[⟨1, "hi"⟩]⟩]⟩]⟩)).2 = .error .fileNotFound ∧
    (transcribe_file ⟨[], none, []⟩ (some ["a"])
        (.ok ⟨[⟨[⟨[⟨1, "hi"⟩]⟩]⟩]⟩)).1.transcripts = [] := by
  exact ⟨rfl, rfl⟩

/-- C6, amended: when the vocabulary file is missing, `transcribe_file`
fails the whole invocation with the `open()` error — no transcript is
written and the recognition outcome is never consulted — instead of
treating the vocabulary as empty and proceeding. -/
theorem c6_missing_vocab (st : TState) (hints : Option (List String))
    (out : Except PyError RecognizeResponse) (hv : st.vocabFile = none) :
    (transcribe_file st hints out).2 = .error .fileNotFound ∧
    (transcribe_file st hints out).1.transcripts = st.transcripts := by
  simp [transcribe_file, hv]

/-- C6, witness for the amended claim at a concrete invocation. -/
theorem c6_missing_vocab_witness :
    (transcribe_file ⟨[], none, []⟩ none (.ok ⟨[]⟩)).2 = .error .fileNotFound ∧
    (transcribe_file ⟨[], none, []⟩ none (.ok ⟨[]⟩)).1.transcripts
        = (⟨[], none, []⟩ : TState).transcripts :=
  c6_missing_vocab ⟨[], none, []⟩ none (.ok ⟨[]⟩) rfl

/-- C10: with the vocabulary file present, a recognition response whose
results list is empty makes `transcribe_file` fail at transcript assembly
with the `IndexError` of `response.results[-1]`, writing no transcript
file; and a transcript file is written only when the response has at least
one result whose last entry has at least one alternative. -/
theorem c10_empty_results (st : TState) (c : String)
    (hints : Option (List String)) (resp : RecognizeResponse)
    (hv : st.vocabFile = some c) :
    (resp.results = [] →
      (transcribe_file st hints (.ok resp)).2 = .error .indexError ∧
      (transcribe_file st hints (.ok resp)).1.transcripts = st.transcripts) ∧
    ((transcribe_file st hints (.ok resp)).1.transcripts ≠ st.transcripts →
      ∃ r, resp.results.getLast? = some r ∧ r.alternatives ≠ []) := by
  constructor
  · intro hres
    cases hints <;> simp [transcribe_file, hv, hres]
  · intro hch
    rcases hl : resp.results.getLast? with _ | r
    · exact absurd (by cases hints <;> simp [transcribe_file, hv, hl]) hch
    · rcases ha : r.alternatives.head? with _ | a
      · exact absurd (by cases hints <;> simp [transcribe_file, hv, hl, ha]) hch
      · refine ⟨r, rfl, fun hAlt => ?_⟩
        rw [hAlt] at ha
        simp at ha

/-- C10, witness: a response with an empty results list aborts a concrete
invocation with `IndexError` and leaves the transcript list empty. -/
theorem c10_empty_results_witness :
    (transcribe_file ⟨[], some "", []⟩ none (.ok ⟨[]⟩)).2 = .error .indexError ∧
    (transcribe_file ⟨[], some "", []⟩ none (.ok ⟨[]⟩)).1.transcripts
        = (⟨[], some "", []⟩ : TState).transcripts :=
  (c10_empty_results ⟨[], some "", []⟩ "" none ⟨[]⟩ rfl).1 rfl

/-! ## Helper lemmas about the recorder -/

/-- Once the process has exited (cleanly or by crash), no later event
changes the state. -/
theorem runR_frozen (evs : List REvent) :
    ∀ s : RecState, s.quitted = true ∨ s.crashed = true → runR s evs = s := by
  induction evs with
  | nil =>
    intro s _
    rfl
  | cons e es ih =>
    intro s h
    have hs : stepR s e = s := by
      unfold stepR
      rw [if_pos (by simpa using h)]
    simp only [runR, List.foldl_cons, hs]
    exact ih s h

/-- Once the process has exited, the poll loop observes nothing further. -/
theorem observations_frozen (evs : List REvent) :
    ∀ s : RecState, s.quitted = true ∨ s.crashed = true →
      observations s evs = [] := by
  induction evs with
  | nil =>
    intro s _
    rfl
  | cons e es ih =>
    intro s h
    unfold observations
    rw [if_pos (by simpa using h)]
    exact ih s h

/-- Running invariant behind C4: from any live state, the files written by
the rest of the run are the falling edges of the key samples the poll loop
still observes, counted against the current `recording` flag — which always
equals the previously observed sample. -/
theorem runR_files_invariant (evs : List REvent) :
    ∀ s : RecState, s.quitted = false → s.crashed = false →
      (runR s evs).files = s.files + fallingEdges s.recording (observations s evs) := by
  induction evs with
  | nil =>
    intro s _ _
    simp [runR, observations, fallingEdges]
  | cons e es ih =>
    intro s hq hc
    have hcond : ¬ (s.quitted = true ∨ s.crashed = true) := by simp [hq, hc]
    cases e with
    | pressR =>
      have hstep : stepR s .pressR = { s with key_pressed := true } := by
        unfold stepR
        rw [if_neg hcond]
      have hobs : observations s (.pressR :: es)
          = observations (stepR s .pressR) es := by
        conv_lhs => unfold observations
        rw [if_neg hcond]
      have hrun : runR s (.pressR :: es) = runR (stepR s .pressR) es := rfl
      rw [hrun, hobs, hstep]
      exact ih _ hq hc
    | releaseR =>
      have hstep : stepR s .releaseR = { s with key_pressed := false } := by
        unfold stepR
        rw [if_neg hcond]
      have hobs : observations s (.releaseR :: es)
          = observations (stepR s .releaseR) es := by
        conv_lhs => unfold observations
        rw [if_neg hcond]
      have hrun : runR s (.releaseR :: es) = runR (stepR s .releaseR) es := rfl
      rw [hrun, hobs, hstep]
      exact ih _ hq hc
    | pressQ =>
      have hstep : stepR s .pressQ = { s with ended := true } := by
        unfold stepR
        rw [if_neg hcond]
      have hobs : observations s (.pressQ :: es)
          = observations (stepR s .pressQ) es := by
        conv_lhs => unfold observations
        rw [if_neg hcond]
      have hrun : runR s (.pressQ :: es) = runR (stepR s .pressQ) es := rfl
      rw [hrun, hobs, hstep]
      exact ih _ hq hc
    | tick =>
      have hstep : stepR s .tick = recorderTick s := by
        unfold stepR
        rw [if_neg hcond]
      have hobs : observations s (.tick :: es)
          = s.key_pressed :: observations (recorderTick s) es := by
        conv_lhs => unfold observations
        rw [if_neg hcond, hstep]
      have hrun : runR s (.tick :: es) = runR (recorderTick s) es := by
        have h0 : runR s (.tick :: es) = runR (stepR s .tick) es := rfl
        rw [h0, hstep]
      rw [hrun, hobs]
      have hfe : fallingEdges s.recording
            (s.key_pressed :: observations (recorderTick s) es)
          = (if s.recording ∧ ¬ s.key_pressed then 1 else 0)
              + fallingEdges s.key_pressed (observations (recorderTick s) es) := rfl
      rw [hfe]
      cases hkp : s.key_pressed with
      | true =>
        cases hrec : s.recording with
        | false =>
          have ht : recorderTick s
              = { s with streamOpen := true, recording := true } := by
            unfold recorderTick
            rw [if_pos (by simp [hkp, hrec])]
          rw [ht, ih { s with streamOpen := true, recording := true } hq hc]
          simp [hkp, hrec]
        | true =>
          have ht : recorderTick s = s := by
            unfold recorderTick
            rw [if_neg (by simp [hrec]), if_neg (by simp [hkp]),
              if_neg (by simp [hkp])]
          rw [ht, ih s hq hc]
          simp [hkp, hrec]
      | false =>
        cases hrec : s.recording with
        | true =>
          have ht : recorderTick s
              = { s with recording := false, files := s.files + 1 } := by
            unfold recorderTick
            rw [if_neg (by simp [hkp]), if_pos (by simp [hkp, hrec])]
          rw [ht, ih { s with recording := false, files := s.files + 1 } hq hc]
          simp [hkp, hrec]
          omega
        | false =>
          cases hend : s.ended with
          | false =>
            have ht : recorderTick s = s := by
              unfold recorderTick
              rw [if_neg (by simp [hkp]), if_neg (by simp [hrec]),
                if_neg (by simp [hend])]
            rw [ht, ih s hq hc]
            simp [hkp, hrec]
          | true =>
            cases hso : s.streamOpen with
            | true =>
              have ht : recorderTick s = { s with quitted := true } := by
                unfold recorderTick
                rw [if_neg (by simp [hkp]), if_neg (by simp [hrec]),
                  if_pos (by simp [hkp, hend]), if_pos (by simp [hso])]
              rw [ht, runR_frozen es _ (Or.inl rfl),
                observations_frozen es _ (Or.inl rfl)]
              simp [hkp, hrec, fallingEdges]
            | false =>
              have ht : recorderTick s = { s with crashed := true } := by
                unfold recorderTick
                rw [if_neg (by simp [hkp]), if_neg (by simp [hrec]),
                  if_pos (by simp [hkp, hend]), if_neg (by simp [hso])]
              rw [ht, runR_frozen es _ (Or.inr rfl),
                observations_frozen es _ (Or.inr rfl)]
              simp [hkp, hrec, fallingEdges]

/-- C4: over every finite interleaving of record-key presses, releases,
quit-key presses and poll-loop ticks, the number of WAV files the recorder
has written when the trace ends equals the number of complete
press-then-release pairs the poll loop observed before quit: each
Recording-to-Idle transition writes exactly one file and no other
transition writes one. -/
theorem c4_files_eq_observed_pairs (evs : List REvent) :
    (runR initRecState evs).files = completePairs (observations initRecState evs) := by
  have h := runR_files_invariant evs initRecState rfl rfl
  simpa [initRecState, completePairs] using h

/-- C5: the quit transition fires only from a live state that is not
recording: whenever a step newly sets `quitted`, the state before it had
`recording` false (the record key's release had already transitioned the
machine back to Idle, or it never recorded), the record key up, quit
requested, and the event was a poll tick.  In particular no tick taken
while `recording` is true terminates the process. -/
theorem c5_quit_deferred_until_idle (s : RecState) (e : REvent)
    (h : (stepR s e).quitted = true) :
    s.quitted = true ∨
      (s.recording = false ∧ s.key_pressed = false ∧ s.ended = true ∧
        e = .tick) := by
  by_cases hq : s.quitted = true
  · exact Or.inl hq
  · right
    have hq' : s.quitted = false := by simpa using hq
    by_cases hc : s.crashed = true
    · exfalso
      have hs : stepR s e = s := by
        unfold stepR
        rw [if_pos (Or.inr hc)]
      rw [hs] at h
      exact hq (by simpa using h)
    · have hc' : s.crashed = false := by simpa using hc
      have hcond : ¬ (s.quitted = true ∨ s.crashed = true) := by simp [hq', hc']
      cases e with
      | pressR =>
        have hs : stepR s .pressR = { s with key_pressed := true } := by
          unfold stepR
          rw [if_neg hcond]
        rw [hs] at h
        exact absurd h (by simp [hq'])
      | releaseR =>
        have hs : stepR s .releaseR = { s with key_pressed := false } := by
          unfold stepR
          rw [if_neg hcond]
        rw [hs] at h
        exact absurd h (by simp [hq'])
      | pressQ =>
        have hs : stepR s .pressQ = { s with ended := true } := by
          unfold stepR
          rw [if_neg hcond]
        rw [hs] at h
        exact absurd h (by simp [hq'])
      | tick =>
        have hs : stepR s .tick = recorderTick s := by
          unfold stepR
          rw [if_neg hcond]
        rw [hs] at h
        unfold recorderTick at h
        by_cases hkp : s.key_pressed = true
        · by_cases hrec : s.recording = true
          · rw [if_neg (by simp [hrec]), if_neg (by simp [hkp]),
              if_neg (by simp [hkp])] at h
            exact absurd h (by simp [hq'])
          · rw [if_pos (by simp [hkp, hrec])] at h
            exact absurd h (by simp [hq'])
        · by_cases hrec : s.recording = true
          · rw [if_neg (by simp [hkp]), if_pos (by simp [hkp, hrec])] at h
            exact absurd h (by simp [hq'])
          · by_cases hend : s.ended = true
            · exact ⟨by simpa using hrec, by simpa using hkp, hend, rfl⟩
            · rw [if_neg (by simp [hkp]), if_neg (by simp [hrec]),
                if_neg (by simp [hend])] at h
              exact absurd h (by simp [hq'])

/-- C5, witness: a tick in a live idle state with quit requested and a
previously opened stream does quit, and that state satisfies the
conclusion. -/
theorem c5_quit_deferred_until_idle_witness :
    (⟨false, true, false, true, 3, false, false⟩ : RecState).quitted = true ∨
      ((⟨false, true, false, true, 3, false, false⟩ : RecState).recording = false ∧
        (⟨false, true, false, true, 3, false, false⟩ : RecState).key_pressed = false ∧
        (⟨false, true, false, true, 3, false, false⟩ : RecState).ended = true ∧
        REvent.tick = REvent.tick) :=
  c5_quit_deferred_until_idle ⟨false, true, false, true, 3, false, false⟩ .tick (by decide)

/-- C9: pressing the quit key and letting one poll tick run, with no
recording ever started in the session, does not make the recorder close the
stream, release the device and exit — `stream` is still `None`, so the quit
branch's `stream.close()` raises `AttributeError` and the callback crashes
with the device never released.  After a completed recording the same quit
sequence does exit cleanly. -/
theorem c9_quit_before_recording_crashes :
    (runR initRecState [.pressQ, .tick]).crashed = true ∧
    (runR initRecState [.pressQ, .tick]).quitted = false ∧
    (runR initRecState [.pressR, .tick, .releaseR, .tick, .pressQ, .tick]).quitted = true := by
  refine ⟨by decide, by decide, by decide⟩

end SpeechToText
